import Mathlib

/-!
Verification development for the spotify-nostalgic-recommend repository.

The front-end TypeScript code (pages, hooks, API client, progress view) is
shallowly embedded as executable Lean functions below. The back-end
components (rate limiter, recommendation scorer, cluster engine, nostalgia
matcher) are not part of the available sources, so they are modelled
directly from the specification text; each such definition carries a doc
comment starting with "Modelled from the spec:".
-/

/-- Squared Euclidean distance between two feature vectors, walking the
dimensions pairwise (extra dimensions of the longer vector are ignored). -/
def dist2 : List ℚ → List ℚ → ℚ
  | a :: as, b :: bs => (a - b) ^ 2 + dist2 as bs
  | _, _ => 0

namespace Onboarding

/-- Calendar date as produced by the JavaScript Date accessors:
`year = getFullYear()`, `month = getMonth()` (0-based), `day = getDate()`. -/
structure SimpleDate where
  year : Int
  month : Nat
  day : Nat
deriving DecidableEq

/-- Age computation of OnboardingPage.handleSubmit: year difference,
decremented when the birthday has not yet occurred this year. -/
def computeAge (today birth : SimpleDate) : Int :=
  let age := today.year - birth.year
  let monthDiff : Int := (today.month : Int) - (birth.month : Int)
  if monthDiff < 0 ∨ (monthDiff = 0 ∧ today.day < birth.day) then age - 1 else age

/-- Outcome of submitting the onboarding form: either a rejection with the
error message set by `setError`, or the `authApi.completeOnboarding` call. -/
inductive SubmitOutcome where
  | rejected (msg : String)
  | apiCall
deriving DecidableEq

/-- OnboardingPage.handleSubmit: empty date and missing session are rejected
first, then the age bounds are checked, and only then is the API called. -/
def handleSubmit (dateOfBirth : Option SimpleDate) (sessionId : Option String)
    (today : SimpleDate) : SubmitOutcome :=
  match dateOfBirth with
  | none => .rejected "Please enter your date of birth"
  | some birth =>
    match sessionId with
    | none => .rejected "Session not found. Please log in again."
    | some _ =>
      let age := computeAge today birth
      if age < 13 then
        .rejected "You must be at least 13 years old to use this service"
      else if age > 120 then
        .rejected "Please enter a valid date of birth"
      else
        .apiCall

/-- OnboardingPage.calculateFormativeYears: `null` for an empty date, else
the pair (birth year + 12, birth year + 18). -/
def calculateFormativeYears (dateOfBirth : Option SimpleDate) : Option (Int × Int) :=
  match dateOfBirth with
  | none => none
  | some birth => some (birth.year + 12, birth.year + 18)

end Onboarding

namespace RateLimiter

/-- Deployment configuration of the rate limiter (spec §4.5): cooldown in
hours and maximum generations per rolling 24-hour window. -/
structure Config where
  cooldown_hours : Nat
  max_per_day : Nat

/-- Number of prior generations (timestamps in hours) falling in the rolling
24-hour window ending at `now`. -/
def gensInWindow (now : ℤ) (history : List ℤ) : Nat :=
  (history.filter (fun t => decide (now - 24 < t ∧ t ≤ now))).length

/-- Cooldown test: vacuously true with no prior generation, else at least
`cooldown_hours` must have elapsed since the most recent generation. -/
def cooldownElapsed (cfg : Config) (now : ℤ) (history : List ℤ) : Bool :=
  match history.max? with
  | none => true
  | some last => decide ((cfg.cooldown_hours : ℤ) ≤ now - last)

/-- Modelled from the spec: the back-end rate limiter (`may_generate`) is not
among the available sources. Spec §4.5: generation is permitted only if BOTH
the cooldown has elapsed (or no prior generation exists) AND fewer than
`max_per_day` generations occurred in the current rolling 24-hour window. -/
def may_generate (cfg : Config) (now : ℤ) (history : List ℤ) : Bool :=
  cooldownElapsed cfg now history && decide (gensInWindow now history < cfg.max_per_day)

end RateLimiter

namespace Scorer

/-- Candidate track returned by the external catalog: id, audio feature
vector, and popularity on Spotify's 0..100 scale. -/
structure Candidate where
  id : String
  features : List ℚ
  popularity : ℚ
deriving DecidableEq

/-- Generated recommendation: catalog id plus confidence score. -/
structure Recommendation where
  track_id : String
  confidence_score : ℚ
deriving DecidableEq

/-- Fixed blend weight between distance closeness and popularity (the spec
leaves the exact blend tunable; any fixed weight in [0,1] qualifies). -/
def distWeight : ℚ := 7 / 10

/-- Clamp a rational to the unit interval. -/
def clamp01 (x : ℚ) : ℚ := min 1 (max 0 x)

/-- Modelled from the spec: the back-end confidence heuristic is not among
the available sources. Spec §4.3: a monotonic combination of inverse
feature-space distance to the target and normalized popularity. -/
def confidence (target : List ℚ) (c : Candidate) : ℚ :=
  distWeight * (1 / (1 + dist2 target c.features)) +
    (1 - distWeight) * clamp01 (c.popularity / 100)

/-- Modelled from the spec: the back-end Recommendation Scorer `generate` is
not among the available sources. Spec §4.3: filter out candidates whose
catalog id is in `excluded_ids`, score the rest, rank by confidence
descending, and cap at `limit`. -/
def generate (target : List ℚ) (excluded : List String) (limit : Nat)
    (candidates : List Candidate) : List Recommendation :=
  let filtered := candidates.filter (fun c => decide (c.id ∉ excluded))
  let recs : List Recommendation := filtered.map (fun c => ⟨c.id, confidence target c⟩)
  (recs.insertionSort (fun a b => b.confidence_score ≤ a.confidence_score)).take limit

end Scorer

namespace Cluster

/-- Track as seen by the Cluster Engine: catalog id and an optional feature
vector (`none` when the external catalog failed to supply features). -/
structure TrackF where
  id : String
  features : Option (List ℚ)
deriving DecidableEq

/-- Index accumulator for the nearest-centroid search. -/
def nearestAux (x : List ℚ) : List (List ℚ) → Nat → Nat → ℚ → Nat
  | [], _, bestI, _ => bestI
  | c :: rest, i, bestI, bestD =>
    if dist2 x c < bestD then nearestAux x rest (i + 1) i (dist2 x c)
    else nearestAux x rest (i + 1) bestI bestD

/-- Index of the centroid nearest to `x` (0 on an empty centroid list). -/
def nearestIdx (x : List ℚ) (cs : List (List ℚ)) : Nat :=
  match cs with
  | [] => 0
  | c :: rest => nearestAux x rest 1 0 (dist2 x c)

/-- Persisted cluster: integer id, centroid, and assigned-track count. -/
structure ClusterOut where
  id : Nat
  centroid : List ℚ
  track_count : Nat
deriving DecidableEq

/-- Modelled from the spec: the scikit-learn style k-means call used by the
back-end is not among the available sources. The library contract errors
when the sample count is below the requested cluster count or the cluster
count is zero; otherwise it returns centroids (seeded from the first `k`
points) and a nearest-centroid assignment for every point. -/
def kmeans (points : List (List ℚ)) (k : Nat) :
    Except String (List (List ℚ) × List Nat) :=
  if k = 0 then .error "Number of clusters must be at least 1"
  else if points.length < k then .error "n_samples should be at least n_clusters"
  else
    let centroids := points.take k
    .ok (centroids, points.map (fun p => nearestIdx p centroids))

/-- Assemble the persisted cluster records from centroids and assignment. -/
def buildClusters (effK : Nat) (cents : List (List ℚ)) (assign : List Nat) :
    List ClusterOut :=
  (List.range effK).map
    (fun i => ⟨i, cents.getD i [], (assign.filter (fun j => j == i)).length⟩)

/-- Modelled from the spec: the back-end Cluster Engine `analyze` is not
among the available sources. Spec §4.1: tracks without feature vectors are
excluded, k is reduced to the track count when the track count is smaller
than k (handled explicitly rather than erroring), and k-means partitions the
remaining points. -/
def analyze (tracks : List TrackF) (k : Nat) : Except String (List ClusterOut) :=
  let pts := tracks.filterMap (fun t => t.features)
  let effK := min k pts.length
  if effK = 0 then .ok []
  else
    match kmeans pts effK with
    | .error e => .error e
    | .ok (cents, assign) => .ok (buildClusters effK cents assign)

end Cluster

namespace Nostalgia

/-- Scraped chart entry: chart year, rank, and free-text title/artist. -/
structure ChartEntry where
  year : Nat
  rank : Nat
  title : String
  artist : String
deriving DecidableEq

/-- Catalog track a chart entry may resolve to. -/
structure CatalogTrack where
  id : String
  features : List ℚ
deriving DecidableEq

/-- Minimum squared distance from a feature vector to any centroid
(0 when the centroid list is empty). -/
def minDistToCentroids (feats : List ℚ) (cents : List (List ℚ)) : ℚ :=
  match cents with
  | [] => 0
  | c :: cs => (cs.map (dist2 feats)).foldl min (dist2 feats c)

/-- Modelled from the spec: the back-end Nostalgia Matcher `generate` is not
among the available sources. Spec §4.4: each chart entry is resolved to a
catalog track via best-effort text search (`resolve`); entries that fail to
resolve are dropped silently; resolved tracks are ranked ascending by
minimum distance to any cluster centroid and capped at `limit`. -/
def generate (resolve : ChartEntry → Option CatalogTrack)
    (centroids : List (List ℚ)) (limit : Nat) (entries : List ChartEntry) :
    List (CatalogTrack × ℚ) :=
  let resolved := entries.filterMap resolve
  let scored := resolved.map (fun t => (t, minDistToCentroids t.features centroids))
  (scored.insertionSort (fun a b => a.2 ≤ b.2)).take limit

end Nostalgia

namespace Polling

/-- Analysis progress record as fetched by `progressApi.getAnalysisProgress`
(only the status field drives the polling control flow). -/
structure ProgRec where
  status : String
deriving DecidableEq

/-- State held by the useAnalysisProgress hook: the last fetched progress
record, the last error, the polling flags, and the registered interval
period in milliseconds (`none` when no interval is registered). -/
structure HookState where
  progress : Option ProgRec
  errMsg : Option String
  isPolling : Bool
  isLoading : Bool
  intervalMs : Option Nat
deriving DecidableEq

/-- Initial hook state. -/
def initState : HookState := ⟨none, none, false, false, none⟩

/-- useAnalysisProgress.stopPolling: clear the flags and the interval. -/
def stopPolling (st : HookState) : HookState :=
  { st with isPolling := false, isLoading := false, intervalMs := none }

/-- Terminal statuses of the analysis progress record. -/
def isTerminal (s : String) : Bool := s == "completed" || s == "failed"

/-- Effect of one resolved fetchProgress call: on success store the record
and stop polling if its status is terminal; on error store the message and
stop polling. -/
def applyFetch (st : HookState) (result : Except String ProgRec) : HookState :=
  match result with
  | .ok r =>
    let st2 := { st with errMsg := none, progress := some r }
    if isTerminal r.status then stopPolling st2 else st2
  | .error msg => stopPolling { st with errMsg := some msg }

/-- Events driving the hook: an explicit startPolling call (carrying the
result of its immediate fetch), an interval tick (carrying the result of
its fetch), and an explicit stopPolling call. -/
inductive Event where
  | start (first : Except String ProgRec)
  | tick (result : Except String ProgRec)
  | stop

/-- Whether an event is an interval tick. -/
def isTickEvent : Event → Bool
  | .tick _ => true
  | _ => false

/-- One step of the hook. startPolling is a no-op when already polling or
without a session; it sets the flags, registers a 2000 ms interval, and
fetches immediately. A tick fetches only when an interval is registered and
a session exists (fetchProgress returns early without a session; a cleared
interval never fires). -/
def step (sessionId : Option String) (st : HookState) (e : Event) : HookState :=
  match e with
  | .start first =>
    if st.isPolling ∨ sessionId = none then st
    else applyFetch { st with isPolling := true, isLoading := true, intervalMs := some 2000 } first
  | .tick result =>
    if st.intervalMs = none ∨ sessionId = none then st
    else applyFetch st result
  | .stop => stopPolling st

end Polling

namespace Api

/-- Browser localStorage modelled as an association list. -/
abbrev Store := List (String × String)

/-- localStorage.removeItem. -/
def removeItem (s : Store) (k : String) : Store :=
  List.filter (fun p => decide (p.1 ≠ k)) s

/-- Axios error as seen by the response interceptor: the optional HTTP
status of `error.response`. -/
structure AxiosError where
  status : Option Nat
deriving DecidableEq

/-- Browser-visible state touched by the interceptor. -/
structure Browser where
  store : Store
  location : String

/-- api.interceptors.response error handler: on status 401 remove the
stored session id and redirect to '/'; in every case the error is
propagated as a rejected promise. -/
def onResponseError (b : Browser) (e : AxiosError) :
    Browser × Except AxiosError Unit :=
  if e.status = some 401 then
    (⟨removeItem b.store "spotify_session_id", "/"⟩, .error e)
  else
    (b, .error e)

end Api

namespace ProgressView

/-- Seconds elapsed since the analysis started (0 when `started_at` is
absent), as computed by AnalysisProgress.getEstimatedTimeRemaining. -/
def elapsedSecs (started : Option ℚ) (now : ℚ) : ℚ :=
  match started with
  | some t => now - t
  | none => 0

/-- AnalysisProgress.getEstimatedTimeRemaining, abstracted to the numeric
remaining-seconds value (the component renders it as "~Ns"/"~Nm"): null on a
terminal status, on zero percentage, or within the first 10 seconds; else
`max 0 (elapsed / percentage * 100 - elapsed)`. -/
def getEstimatedTimeRemaining (status : String) (pct : ℚ) (started : Option ℚ)
    (now : ℚ) : Option ℚ :=
  if status = "completed" ∨ status = "failed" then none
  else if pct = 0 then none
  else
    let elapsed := elapsedSecs started now
    if elapsed < 10 then none
    else some (max 0 (elapsed / pct * 100 - elapsed))

end ProgressView

theorem dist2_nonneg : ∀ (xs ys : List ℚ), 0 ≤ dist2 xs ys
  | a :: as, b :: bs => by
    have h := dist2_nonneg as bs
    simp only [dist2]
    positivity
  | [], _ => by simp [dist2]
  | _ :: _, [] => by simp [dist2]

/-- C1: for every birth date the formative-year window is
[birth_year + 12, birth_year + 18] inclusive; in particular the birth date
1990-05-15 (month 4 in JavaScript 0-based months) yields [2002, 2008]. -/
theorem formative_years_window (b : Onboarding.SimpleDate) :
    Onboarding.calculateFormativeYears (some b) = some (b.year + 12, b.year + 18) ∧
    Onboarding.calculateFormativeYears (some ⟨1990, 4, 15⟩) = some (2002, 2008) :=
  ⟨rfl, rfl⟩

/-- C2: with a date of birth and a session present, an adjusted age below 13
or above 120 is rejected with the corresponding descriptive message (so the
onboarding API call is not made), and an adjusted age of exactly 13 reaches
the API call. -/
theorem Onboarding.age_validation (today birth : Onboarding.SimpleDate) (sid : String) :
    (computeAge today birth < 13 →
      handleSubmit (some birth) (some sid) today =
        .rejected "You must be at least 13 years old to use this service") ∧
    (computeAge today birth > 120 →
      handleSubmit (some birth) (some sid) today =
        .rejected "Please enter a valid date of birth") ∧
    (computeAge today birth = 13 →
      handleSubmit (some birth) (some sid) today = .apiCall) := by
  refine ⟨fun h => ?_, fun h => ?_, fun h => ?_⟩
  · simp [handleSubmit, h]
  · have h13 : ¬ computeAge today birth < 13 := by omega
    simp [handleSubmit, h13, h]
  · simp [handleSubmit, h]

theorem Onboarding.age_validation_witness :
    Onboarding.handleSubmit (some ⟨2020, 0, 1⟩) (some "s") ⟨2026, 9, 12⟩ =
      .rejected "You must be at least 13 years old to use this service" ∧
    Onboarding.handleSubmit (some ⟨1900, 0, 1⟩) (some "s") ⟨2026, 9, 12⟩ =
      .rejected "Please enter a valid date of birth" ∧
    Onboarding.handleSubmit (some ⟨2013, 9, 12⟩) (some "s") ⟨2026, 9, 12⟩ = .apiCall :=
  ⟨(Onboarding.age_validation ⟨2026, 9, 12⟩ ⟨2020, 0, 1⟩ "s").1 (by decide),
   (Onboarding.age_validation ⟨2026, 9, 12⟩ ⟨1900, 0, 1⟩ "s").2.1 (by decide),
   (Onboarding.age_validation ⟨2026, 9, 12⟩ ⟨2013, 9, 12⟩ "s").2.2 (by decide)⟩

/-- C3: with max_per_day = 4 (and any cooldown state), a user with at least
4 generations inside the rolling 24-hour window is rejected — the daily cap
applies regardless of whether the 4-hour cooldown has elapsed. -/
theorem RateLimiter.daily_cap_dominates_cooldown (now : ℤ) (history : List ℤ)
    (h : 4 ≤ gensInWindow now history) :
    may_generate ⟨4, 4⟩ now history = false := by
  have h2 : ¬ gensInWindow now history < 4 := by omega
  simp [may_generate, h2]

theorem RateLimiter.daily_cap_witness :
    4 ≤ RateLimiter.gensInWindow 10 [0, 1, 2, 3] ∧
    RateLimiter.cooldownElapsed ⟨4, 4⟩ 10 [0, 1, 2, 3] = true ∧
    RateLimiter.may_generate ⟨4, 4⟩ 10 [0, 1, 2, 3] = false :=
  ⟨by decide, by decide,
   RateLimiter.daily_cap_dominates_cooldown 10 [0, 1, 2, 3] (by decide)⟩

theorem Scorer.confidence_mem_unit (target : List ℚ) (c : Scorer.Candidate) :
    0 ≤ confidence target c ∧ confidence target c ≤ 1 := by
  have hd : 0 ≤ dist2 target c.features := dist2_nonneg _ _
  have h1 : (0 : ℚ) < 1 + dist2 target c.features := by linarith
  have hinv0 : 0 ≤ 1 / (1 + dist2 target c.features) := by positivity
  have hinv1 : 1 / (1 + dist2 target c.features) ≤ 1 := by
    rw [div_le_one h1]; linarith
  have hc0 : 0 ≤ clamp01 (c.popularity / 100) :=
    le_min (by norm_num) (le_max_left _ _)
  have hc1 : clamp01 (c.popularity / 100) ≤ 1 := min_le_left _ _
  unfold confidence distWeight
  constructor <;> nlinarith

/-- C4: every recommendation produced by the scorer has a confidence score
in [0,1], so the front-end badge `Math.round(confidence_score * 100)` is
always between 0 and 100. -/
theorem Scorer.generate_confidence_in_unit (target : List ℚ) (excluded : List String)
    (limit : Nat) (candidates : List Scorer.Candidate) (r : Scorer.Recommendation)
    (hr : r ∈ generate target excluded limit candidates) :
    0 ≤ r.confidence_score ∧ r.confidence_score ≤ 1 ∧
    0 ≤ round (r.confidence_score * 100) ∧ round (r.confidence_score * 100) ≤ 100 := by
  simp only [generate] at hr
  have hr' := List.mem_of_mem_take hr
  rw [List.mem_insertionSort] at hr'
  obtain ⟨c, hcmem, rfl⟩ := List.mem_map.mp hr'
  obtain ⟨h0, h1⟩ := confidence_mem_unit target c
  dsimp only
  refine ⟨h0, h1, ?_, ?_⟩
  · rw [round_eq]
    refine Int.le_floor.mpr ?_
    push_cast
    linarith
  · rw [round_eq]
    have hlt : (confidence target c) * 100 + 1 / 2 < ((101 : ℤ) : ℚ) := by
      push_cast
      linarith
    have := Int.floor_lt.mpr hlt
    omega

theorem Scorer.generate_confidence_witness :
    (⟨"a", 17 / 20⟩ : Scorer.Recommendation) ∈
      Scorer.generate [0] [] 5 [⟨"a", [0], 50⟩] ∧
    0 ≤ (17 / 20 : ℚ) ∧ (17 / 20 : ℚ) ≤ 1 ∧
    0 ≤ round ((17 / 20 : ℚ) * 100) ∧ round ((17 / 20 : ℚ) * 100) ≤ 100 := by
  have hm : (⟨"a", 17 / 20⟩ : Scorer.Recommendation) ∈
      Scorer.generate [0] [] 5 [⟨"a", [0], 50⟩] := by
    norm_num [Scorer.generate, Scorer.confidence, Scorer.clamp01, Scorer.distWeight,
      dist2, min_def, max_def]
  have h := Scorer.generate_confidence_in_unit [0] [] 5 [⟨"a", [0], 50⟩] ⟨"a", 17 / 20⟩ hm
  exact ⟨hm, h.1, h.2.1, h.2.2.1, h.2.2.2⟩

/-- C5: no recommendation returned by the scorer carries a catalog id that
belongs to the excluded-ids set. -/
theorem Scorer.generate_excludes_known_ids (target : List ℚ) (excluded : List String)
    (limit : Nat) (candidates : List Scorer.Candidate) (r : Scorer.Recommendation)
    (hr : r ∈ generate target excluded limit candidates) :
    r.track_id ∉ excluded := by
  simp only [generate] at hr
  have hr' := List.mem_of_mem_take hr
  rw [List.mem_insertionSort] at hr'
  obtain ⟨c, hcmem, rfl⟩ := List.mem_map.mp hr'
  exact of_decide_eq_true (List.mem_filter.mp hcmem).2

theorem Scorer.generate_excludes_witness :
    (⟨"a", 7 / 10⟩ : Scorer.Recommendation) ∈
      Scorer.generate [0] ["b"] 5 [⟨"a", [0], 0⟩, ⟨"b", [0], 100⟩] ∧
    "a" ∉ ["b"] := by
  have hm : (⟨"a", 7 / 10⟩ : Scorer.Recommendation) ∈
      Scorer.generate [0] ["b"] 5 [⟨"a", [0], 0⟩, ⟨"b", [0], 100⟩] := by
    norm_num [Scorer.generate, Scorer.confidence, Scorer.clamp01, Scorer.distWeight,
      dist2, min_def, max_def]
  exact ⟨hm, Scorer.generate_excludes_known_ids [0] ["b"] 5 _ _ hm⟩

theorem Cluster.kmeans_ok (points : List (List ℚ)) (k : Nat) (hk : ¬ k = 0)
    (hle : k ≤ points.length) :
    kmeans points k =
      .ok (points.take k, points.map (fun p => nearestIdx p (points.take k))) := by
  simp only [kmeans]
  rw [if_neg hk, if_neg (Nat.not_lt.mpr hle)]

/-- C6: analyze never errors and returns at most min(k, track count)
clusters; in particular when the track count is below k, k is reduced to
the track count instead of propagating the k-means library error. -/
theorem Cluster.analyze_cluster_count_bound (tracks : List Cluster.TrackF) (k : Nat) :
    ∃ cs, analyze tracks k = Except.ok cs ∧ cs.length ≤ min k tracks.length := by
  have hlen : (tracks.filterMap (fun t => t.features)).length ≤ tracks.length :=
    List.length_filterMap_le _ _
  have hmin : min k (tracks.filterMap (fun t => t.features)).length ≤ min k tracks.length :=
    min_le_min (Nat.le_refl k) hlen
  by_cases h0 : min k (tracks.filterMap (fun t => t.features)).length = 0
  · exact ⟨[], by simp [analyze, h0], by simp⟩
  · have h1 : min k (tracks.filterMap (fun t => t.features)).length ≤
        (tracks.filterMap (fun t => t.features)).length := Nat.min_le_right _ _
    have h2 : ¬ (tracks.filterMap (fun t => t.features)).length <
        min k (tracks.filterMap (fun t => t.features)).length := Nat.not_lt.mpr h1
    refine ⟨buildClusters (min k (tracks.filterMap (fun t => t.features)).length)
        ((tracks.filterMap (fun t => t.features)).take
          (min k (tracks.filterMap (fun t => t.features)).length))
        ((tracks.filterMap (fun t => t.features)).map
          (fun p => nearestIdx p
            ((tracks.filterMap (fun t => t.features)).take
              (min k (tracks.filterMap (fun t => t.features)).length)))), ?_, ?_⟩
    · simp only [analyze]
      rw [if_neg h0, kmeans_ok _ _ h0 h1]
    · simpa [buildClusters] using hmin

/-- C7: a chart entry that fails to resolve to a catalog track contributes
nothing — the generate output over a list containing it equals the output
over the list without it, and the call succeeds either way. -/
theorem Nostalgia.unresolved_entry_dropped
    (resolve : Nostalgia.ChartEntry → Option Nostalgia.CatalogTrack)
    (centroids : List (List ℚ)) (limit : Nat)
    (l1 l2 : List Nostalgia.ChartEntry) (e : Nostalgia.ChartEntry)
    (h : resolve e = none) :
    generate resolve centroids limit (l1 ++ e :: l2) =
      generate resolve centroids limit (l1 ++ l2) := by
  simp [generate, List.filterMap_append, List.filterMap_cons, h]

theorem Nostalgia.unresolved_entry_witness :
    (fun en : Nostalgia.ChartEntry =>
      if en.title = "a" then some (⟨"t", [0]⟩ : Nostalgia.CatalogTrack) else none)
        ⟨1999, 1, "b", "c"⟩ = none ∧
    Nostalgia.generate
        (fun en => if en.title = "a" then some ⟨"t", [0]⟩ else none)
        [[0]] 5 [⟨1999, 1, "b", "c"⟩] =
      Nostalgia.generate
        (fun en => if en.title = "a" then some ⟨"t", [0]⟩ else none)
        [[0]] 5 [] := by
  refine ⟨by decide, ?_⟩
  exact Nostalgia.unresolved_entry_dropped
    (fun en => if en.title = "a" then some ⟨"t", [0]⟩ else none)
    [[0]] 5 [] [] ⟨1999, 1, "b", "c"⟩ (by decide)

/-- C8: startPolling registers a 2000 ms (2 second) fetch interval; a fetch
that returns a record with terminal status ('completed' or 'failed') clears
the interval and the polling flag; and from a state with no registered
interval, interval ticks never fetch again — the state is unchanged until
polling is explicitly restarted. -/
theorem Polling.polling_terminates_at_terminal :
    (∀ (sid : Option String) (st : Polling.HookState) (r : Polling.ProgRec),
      st.isPolling = false → sid ≠ none → isTerminal r.status = false →
        (step sid st (.start (.ok r))).intervalMs = some 2000 ∧
        (step sid st (.start (.ok r))).isPolling = true) ∧
    (∀ (sid : Option String) (st : Polling.HookState) (r : Polling.ProgRec),
      st.intervalMs = some 2000 → sid ≠ none → isTerminal r.status = true →
        (step sid st (.tick (.ok r))).intervalMs = none ∧
        (step sid st (.tick (.ok r))).isPolling = false) ∧
    (∀ (sid : Option String) (st : Polling.HookState) (evs : List Polling.Event),
      st.intervalMs = none → (∀ e ∈ evs, isTickEvent e = true) →
        List.foldl (step sid) st evs = st) := by
  refine ⟨?_, ?_, ?_⟩
  · intro sid st r h1 h2 h3
    simp [step, h1, h2, applyFetch, h3]
  · intro sid st r h1 h2 h3
    simp [step, h1, h2, applyFetch, h3, stopPolling]
  · intro sid st evs h1
    induction evs with
    | nil => intro _; rfl
    | cons e rest ih =>
      intro h2
      have he : isTickEvent e = true := h2 e (List.mem_cons_self _ _)
      cases e with
      | start f => simp [isTickEvent] at he
      | stop => simp [isTickEvent] at he
      | tick res =>
        have hstep : step sid st (Event.tick res) = st := by simp [step, h1]
        rw [List.foldl_cons, hstep]
        exact ih (fun e' he' => h2 e' (List.mem_cons_of_mem _ he'))

theorem Polling.polling_witness :
    (Polling.step (some "s") Polling.initState
        (.start (.ok ⟨"clustering"⟩))).intervalMs = some 2000 ∧
    (Polling.step (some "s") ⟨none, none, true, true, some 2000⟩
        (.tick (.ok ⟨"completed"⟩))).intervalMs = none ∧
    List.foldl (Polling.step (some "s")) Polling.initState
        [Polling.Event.tick (.ok ⟨"starting"⟩)] = Polling.initState :=
  ⟨(Polling.polling_terminates_at_terminal.1 (some "s") Polling.initState
      ⟨"clustering"⟩ rfl (by simp) (by decide)).1,
   (Polling.polling_terminates_at_terminal.2.1 (some "s")
      ⟨none, none, true, true, some 2000⟩ ⟨"completed"⟩ rfl (by simp) (by decide)).1,
   Polling.polling_terminates_at_terminal.2.2 (some "s") Polling.initState
      [Polling.Event.tick (.ok ⟨"starting"⟩)] rfl (by decide)⟩

theorem Api.removeItem_not_mem (s : Api.Store) (k : String) :
    ∀ kv ∈ Api.removeItem s k, kv.1 ≠ k := by
  intro kv hkv
  exact of_decide_eq_true (List.mem_filter.mp hkv).2

/-- C9: on an HTTP 401 response the interceptor removes the stored
spotify_session_id key from localStorage, redirects the browser to '/',
and still propagates the error as a rejected promise. -/
theorem Api.unauthorized_clears_session (b : Api.Browser) (e : Api.AxiosError)
    (h : e.status = some 401) :
    (onResponseError b e).1.location = "/" ∧
    (∀ kv ∈ (onResponseError b e).1.store, kv.1 ≠ "spotify_session_id") ∧
    (onResponseError b e).2 = .error e := by
  refine ⟨?_, ?_, ?_⟩
  · simp [onResponseError, h]
  · simpa [onResponseError, h] using removeItem_not_mem b.store "spotify_session_id"
  · simp [onResponseError, h]

theorem Api.unauthorized_witness :
    (Api.onResponseError
        ⟨[("spotify_session_id", "abc"), ("k", "v")], "/dashboard"⟩
        ⟨some 401⟩).1.location = "/" ∧
    "k" ≠ "spotify_session_id" ∧
    (Api.onResponseError
        ⟨[("spotify_session_id", "abc"), ("k", "v")], "/dashboard"⟩
        ⟨some 401⟩).2 = .error ⟨some 401⟩ := by
  have h := Api.unauthorized_clears_session
    ⟨[("spotify_session_id", "abc"), ("k", "v")], "/dashboard"⟩ ⟨some 401⟩ rfl
  exact ⟨h.1, h.2.1 ("k", "v") (by decide), h.2.2⟩

/-- C10: getEstimatedTimeRemaining returns null on a terminal status, on a
zero progress percentage, and within the first 10 elapsed seconds — so the
division by the percentage is only reached with a nonzero percentage — and
any estimate it does return is non-negative. -/
theorem ProgressView.estimate_guards (status : String) (pct : ℚ)
    (started : Option ℚ) (now : ℚ) :
    ((status = "completed" ∨ status = "failed") →
      getEstimatedTimeRemaining status pct started now = none) ∧
    (pct = 0 → getEstimatedTimeRemaining status pct started now = none) ∧
    (elapsedSecs started now < 10 →
      getEstimatedTimeRemaining status pct started now = none) ∧
    (∀ r, getEstimatedTimeRemaining status pct started now = some r → 0 ≤ r) := by
  refine ⟨fun h => ?_, fun h => ?_, fun h => ?_, fun r hr => ?_⟩
  · rcases h with h | h <;> simp [getEstimatedTimeRemaining, h]
  · simp [getEstimatedTimeRemaining, h]
  · simp only [getEstimatedTimeRemaining]
    split_ifs <;> rfl
  · simp only [getEstimatedTimeRemaining] at hr
    split_ifs at hr
    obtain rfl := Option.some.inj hr
    exact le_max_left _ _

theorem ProgressView.estimate_witness :
    ProgressView.getEstimatedTimeRemaining "completed" 50 (some 0) 20 = none ∧
    ProgressView.getEstimatedTimeRemaining "clustering" 0 (some 0) 20 = none ∧
    ProgressView.getEstimatedTimeRemaining "clustering" 50 none 0 = none ∧
    0 ≤ (20 : ℚ) :=
  ⟨(ProgressView.estimate_guards "completed" 50 (some 0) 20).1 (Or.inl rfl),
   (ProgressView.estimate_guards "clustering" 0 (some 0) 20).2.1 rfl,
   (ProgressView.estimate_guards "clustering" 50 none 0).2.2.1 (by norm_num [ProgressView.elapsedSecs]),
   (ProgressView.estimate_guards "clustering" 50 (some 0) 20).2.2.2 20
     (by rw [ProgressView.getEstimatedTimeRemaining, if_neg (by decide)]
         norm_num [ProgressView.elapsedSecs, max_def])⟩
